import Mathlib

/-!
Verification of the swift-kernel-primitives compatibility shim.

The repository consists of two C headers:
  Sources/CDarwinShim/include/shim.h  (guard CDARWIN_SHIM_H, condition defined(__APPLE__))
  Sources/CPosixShim/include/shim.h   (guard CPOSIX_SHIM_H, condition defined(__APPLE__) || defined(__linux__))
Each header declares static inline forwarding functions over OS primitives:
  swift_shm_open(name, oflag, mode)  = shm_open(name, oflag, mode)
  swift_fork()                       = fork()
  swift_RTLD_MAIN_ONLY()             = RTLD_MAIN_ONLY
  swift_RTLD_FIRST()                 = RTLD_FIRST
  swift_RTLD_DEFAULT()               = RTLD_DEFAULT
  swift_RTLD_NEXT()                  = RTLD_NEXT

The shallow embedding below models
  - the compile-time platform gating of the two headers (preprocessor level),
  - each wrapper as a state-passing function; the process-wide error state
    (errno) lives inside the state,
  - the OS primitives being forwarded to as an abstract structure `OS`,
    so the forwarding theorems hold for every possible OS behaviour,
  - a concrete POSIX-style OS instance, modelled from the spec, for the
    scenario claims about shm_open and fork behaviour.
-/

namespace KernelPrimitives

/-- Platform tag of the spec data model: Darwin, Linux-like, or unsupported.
Selected at build time, immutable for the process lifetime. -/
inductive Platform where
  | darwin
  | linuxLike
  | unsupported
deriving DecidableEq

/-- The six entry points declared by the two headers. -/
inductive EntryPoint where
  | shmOpen
  | fork
  | rtldMainOnly
  | rtldFirst
  | rtldDefault
  | rtldNext
deriving DecidableEq

/-- The preprocessor condition defined(__APPLE__). -/
def appleDefined : Platform → Bool
  | .darwin => true
  | _ => false

/-- The preprocessor condition defined(__linux__). -/
def linuxDefined : Platform → Bool
  | .linuxLike => true
  | _ => false

/-- Entry points emitted by Sources/CDarwinShim/include/shim.h: the body of
the header sits inside #if defined(__APPLE__). -/
def darwinShimEntries (p : Platform) : List EntryPoint :=
  if appleDefined p then
    [.shmOpen, .fork, .rtldMainOnly, .rtldFirst]
  else
    []

/-- Entry points emitted by Sources/CPosixShim/include/shim.h: the body of
the header sits inside #if defined(__APPLE__) || defined(__linux__). -/
def posixShimEntries (p : Platform) : List EntryPoint :=
  if appleDefined p || linuxDefined p then
    [.rtldDefault, .rtldNext]
  else
    []

/-- The compiled interface of a translation unit including both headers. -/
def compiledInterface (p : Platform) : List EntryPoint :=
  darwinShimEntries p ++ posixShimEntries p

/-- Modelled from the spec: the platform dlfcn.h constants are not part of
this repository; the headers only forward them.  Values are the documented
bit patterns of the platform C headers, read as integers: Darwin defines
RTLD_DEFAULT as (void *)-2, Linux-like libc as (void *)0.  On an
unsupported platform the constant does not exist; the branch value is
immaterial since no entry point is compiled there. -/
def RTLD_DEFAULT_value : Platform → Int
  | .darwin => -2
  | .linuxLike => 0
  | .unsupported => 0

/-- Modelled from the spec: RTLD_NEXT is (void *)-1 on both Darwin and
Linux-like platforms. -/
def RTLD_NEXT_value : Platform → Int
  | .darwin => -1
  | .linuxLike => -1
  | .unsupported => 0

/-- Modelled from the spec: RTLD_MAIN_ONLY is Darwin-only, (void *)-5. -/
def RTLD_MAIN_ONLY_value : Platform → Int
  | .darwin => -5
  | _ => 0

/-- Modelled from the spec: RTLD_FIRST is Darwin-only, 0x100. -/
def RTLD_FIRST_value : Platform → Int
  | .darwin => 256
  | _ => 0

/-- Embedding of swift_RTLD_DEFAULT from CPosixShim/include/shim.h.  The C
body is a single return of the constant: it reads no process state and
writes none, which the embedding makes explicit by threading an arbitrary
process state unchanged. -/
def swift_RTLD_DEFAULT {σ : Type} (p : Platform) (s : σ) : Int × σ :=
  (RTLD_DEFAULT_value p, s)

/-- Embedding of swift_RTLD_NEXT from CPosixShim/include/shim.h. -/
def swift_RTLD_NEXT {σ : Type} (p : Platform) (s : σ) : Int × σ :=
  (RTLD_NEXT_value p, s)

/-- Embedding of swift_RTLD_MAIN_ONLY from CDarwinShim/include/shim.h. -/
def swift_RTLD_MAIN_ONLY {σ : Type} (p : Platform) (s : σ) : Int × σ :=
  (RTLD_MAIN_ONLY_value p, s)

/-- Embedding of swift_RTLD_FIRST from CDarwinShim/include/shim.h. -/
def swift_RTLD_FIRST {σ : Type} (p : Platform) (s : σ) : Int × σ :=
  (RTLD_FIRST_value p, s)

/-- The OS primitives the shim forwards to, over an abstract process state σ
(σ contains, in particular, the process-wide errno).  shm_open consumes the
name, the oflag bitmask and a mode_t value and yields a return value plus
the resulting process state.  fork yields the view of the parent (its state
and return value) and, when a child is created, the view of the child. -/
structure OS (σ : Type) where
  shm_open : String → Int → Nat → σ → Int × σ
  fork : σ → (σ × Int) × Option (σ × Int)

/-- Embedding of swift_shm_open from CDarwinShim/include/shim.h.  The C body
is exactly: return shm_open(name, oflag, mode); -/
def swift_shm_open {σ : Type} (os : OS σ) (name : String) (oflag : Int)
    (mode : Nat) (s : σ) : Int × σ :=
  os.shm_open name oflag mode s

/-- Embedding of swift_fork from CDarwinShim/include/shim.h.  The C body is
exactly: return fork(); -/
def swift_fork {σ : Type} (os : OS σ) (s : σ) : (σ × Int) × Option (σ × Int) :=
  os.fork s

/-- Spec-side definition for the refinement claim: a direct call of the
underlying primitive shm_open with the same arguments. -/
def shm_open_direct {σ : Type} (os : OS σ) (name : String) (oflag : Int)
    (mode : Nat) (s : σ) : Int × σ :=
  os.shm_open name oflag mode s

/-- Spec-side definition for the refinement claim: a direct call of the
underlying primitive fork. -/
def fork_direct {σ : Type} (os : OS σ) (s : σ) : (σ × Int) × Option (σ × Int) :=
  os.fork s

/-- Width in bits of Darwin mode_t (__darwin_mode_t is __uint16_t). -/
def MODE_T_BITS : Nat := 16

/-- The C integer conversion applied at the call boundary when an arbitrary
nonnegative integer is supplied for the mode_t parameter of swift_shm_open:
conversion to an unsigned 16-bit type reduces modulo 2 ^ 16. -/
def toMode_t (m : Nat) : Nat := m % 2 ^ MODE_T_BITS

/-- A call of swift_shm_open as seen from the boundary: the supplied integer
m is first converted to mode_t by the C calling convention, then the wrapper
runs. -/
def swift_shm_open_atBoundary {σ : Type} (os : OS σ) (name : String)
    (oflag : Int) (m : Nat) (s : σ) : Int × σ :=
  swift_shm_open os name oflag (toMode_t m) s

/-- Darwin fcntl.h: O_RDWR is 0x0002. -/
def O_RDWR : Int := 2

/-- Darwin fcntl.h: O_CREAT is 0x0200. -/
def O_CREAT : Int := 512

/-- Darwin fcntl.h: O_EXCL is 0x0800. -/
def O_EXCL : Int := 2048

/-- Darwin errno.h: EEXIST is 17. -/
def EEXIST : Int := 17

/-- Darwin errno.h: ENOENT is 2. -/
def ENOENT : Int := 2

/-- Darwin errno.h: EAGAIN is 35. -/
def EAGAIN : Int := 35

/-- Tests whether every bit of flag is set in the oflag bitmask. -/
def hasFlag (oflag flag : Int) : Bool :=
  Int.land oflag flag == flag

/-- Concrete process/OS state for the spec-modelled POSIX instance: the
process-wide errno, the set of existing named shared-memory segments, the
pids of schedulable processes, the next pid the OS will assign, and whether
the OS currently has resources to fork. -/
structure PosixState where
  errno : Int
  segments : List String
  procs : List Nat
  nextPid : Nat
  forkAllowed : Bool
deriving DecidableEq

/-- Modelled from the spec: the OS named-shared-memory open primitive, which
is not part of this repository (the shim only forwards to it).  Per the
spec error-handling section and scenario: opening an existing name with
both the create and the exclusive-create flags fails with the "already
exists" code; creating a fresh name with the create flag succeeds; opening
a missing name without the create flag fails with the "no such entry"
code.  A successful open returns a nonnegative file descriptor. -/
def posix_shm_open (name : String) (oflag : Int) (mode : Nat)
    (s : PosixState) : Int × PosixState :=
  if name ∈ s.segments then
    if hasFlag oflag O_CREAT && hasFlag oflag O_EXCL then
      (-1, { s with errno := EEXIST })
    else
      (3, s)
  else
    if hasFlag oflag O_CREAT then
      (3, { s with segments := name :: s.segments })
    else
      (-1, { s with errno := ENOENT })

/-- Modelled from the spec: the OS process-duplication primitive, which is
not part of this repository.  On success exactly one new schedulable
process appears; the parent return value is the child pid, the child
return value is 0.  On failure the return value is -1, errno is set to the
resource-exhaustion code, and no child is created. -/
def posix_fork (s : PosixState) : (PosixState × Int) × Option (PosixState × Int) :=
  if s.forkAllowed then
    let childPid := s.nextPid
    let t : PosixState :=
      { s with procs := childPid :: s.procs, nextPid := s.nextPid + 1 }
    ((t, (childPid : Int)), some (t, 0))
  else
    (({ s with errno := EAGAIN }, -1), none)

/-- The spec-modelled POSIX OS instance. -/
def posixOS : OS PosixState :=
  { shm_open := posix_shm_open, fork := posix_fork }

/-- Names declared by the Darwin header, in source order. -/
def darwinShimNames : List String :=
  ["swift_shm_open", "swift_fork", "swift_RTLD_MAIN_ONLY", "swift_RTLD_FIRST"]

/-- Names declared by the POSIX header, in source order. -/
def posixShimNames : List String :=
  ["swift_RTLD_DEFAULT", "swift_RTLD_NEXT"]

/-- Preprocessor state of a translation unit: the set of defined include
guards and the list of declarations emitted so far. -/
structure TU where
  guards : List String
  declared : List String
deriving DecidableEq

/-- Inclusion of Sources/CDarwinShim/include/shim.h into a translation
unit: the include guard CDARWIN_SHIM_H makes a second inclusion define
nothing; a first inclusion emits the Darwin entry points when
defined(__APPLE__) holds and nothing otherwise. -/
def includeDarwinShim (p : Platform) (tu : TU) : TU :=
  if "CDARWIN_SHIM_H" ∈ tu.guards then
    tu
  else
    { guards := "CDARWIN_SHIM_H" :: tu.guards,
      declared := tu.declared ++ if appleDefined p then darwinShimNames else [] }

/-- Inclusion of Sources/CPosixShim/include/shim.h into a translation unit,
guarded by CPOSIX_SHIM_H. -/
def includePosixShim (p : Platform) (tu : TU) : TU :=
  if "CPOSIX_SHIM_H" ∈ tu.guards then
    tu
  else
    { guards := "CPOSIX_SHIM_H" :: tu.guards,
      declared := tu.declared ++
        if appleDefined p || linuxDefined p then posixShimNames else [] }

/-- C1: swift_shm_open returns exactly what a direct shm_open call with the
same arguments returns and leaves the process state (hence the error state)
exactly as that direct call would; swift_fork likewise forwards with no
validation, transformation, retry, or extra side effect — for every
possible behaviour of the underlying OS. -/
theorem C1_pure_forwarding {σ : Type} (os : OS σ) (name : String)
    (oflag : Int) (mode : Nat) (s : σ) :
    swift_shm_open os name oflag mode s = shm_open_direct os name oflag mode s ∧
    swift_fork os s = fork_direct os s :=
  ⟨rfl, rfl⟩

/-- C2: each of the four sentinel/flag accessors is pure and deterministic:
its return value equals the platform macro constant, it leaves the process
state untouched, and two calls in arbitrary states (hence after any prior
call sequence) return the identical value. -/
theorem C2_accessors_pure {σ : Type} (p : Platform) (s t : σ) :
    ((swift_RTLD_DEFAULT p s).1 = RTLD_DEFAULT_value p ∧
      (swift_RTLD_DEFAULT p s).2 = s ∧
      (swift_RTLD_DEFAULT p s).1 = (swift_RTLD_DEFAULT p t).1) ∧
    ((swift_RTLD_NEXT p s).1 = RTLD_NEXT_value p ∧
      (swift_RTLD_NEXT p s).2 = s ∧
      (swift_RTLD_NEXT p s).1 = (swift_RTLD_NEXT p t).1) ∧
    ((swift_RTLD_MAIN_ONLY p s).1 = RTLD_MAIN_ONLY_value p ∧
      (swift_RTLD_MAIN_ONLY p s).2 = s ∧
      (swift_RTLD_MAIN_ONLY p s).1 = (swift_RTLD_MAIN_ONLY p t).1) ∧
    ((swift_RTLD_FIRST p s).1 = RTLD_FIRST_value p ∧
      (swift_RTLD_FIRST p s).2 = s ∧
      (swift_RTLD_FIRST p s).1 = (swift_RTLD_FIRST p t).1) :=
  ⟨⟨rfl, rfl, rfl⟩, ⟨rfl, rfl, rfl⟩, ⟨rfl, rfl, rfl⟩, ⟨rfl, rfl, rfl⟩⟩

/-- C3: on a Linux-like platform the four Darwin-only entry points are
absent from the compiled interface while swift_RTLD_DEFAULT and
swift_RTLD_NEXT remain present. -/
theorem C3_linux_gating :
    EntryPoint.shmOpen ∉ compiledInterface .linuxLike ∧
    EntryPoint.fork ∉ compiledInterface .linuxLike ∧
    EntryPoint.rtldMainOnly ∉ compiledInterface .linuxLike ∧
    EntryPoint.rtldFirst ∉ compiledInterface .linuxLike ∧
    EntryPoint.rtldDefault ∈ compiledInterface .linuxLike ∧
    EntryPoint.rtldNext ∈ compiledInterface .linuxLike := by
  decide

/-- C5: swift_shm_open and swift_fork signal failure (-1) exactly when the
underlying primitive does, and the resulting process state — including the
error state it contains — is exactly the state the primitive itself
produced: the wrapper introduces no error condition and alters nothing. -/
theorem C5_error_transparency {σ : Type} (os : OS σ) (name : String)
    (oflag : Int) (mode : Nat) (s : σ) :
    ((swift_shm_open os name oflag mode s).1 = -1 ↔
      (os.shm_open name oflag mode s).1 = -1) ∧
    (swift_shm_open os name oflag mode s).2 = (os.shm_open name oflag mode s).2 ∧
    ((swift_fork os s).1.2 = -1 ↔ (os.fork s).1.2 = -1) ∧
    (swift_fork os s).1.1 = (os.fork s).1.1 ∧
    (swift_fork os s).2 = (os.fork s).2 :=
  ⟨Iff.rfl, rfl, Iff.rfl, rfl, rfl⟩

/-- C4: one call of swift_fork on the spec-modelled OS: on success exactly
one additional schedulable process exists, the call returns in both
processes, the parent return value is positive and equal to the child pid
(which is among the schedulable processes), and the child return value is
0; on failure the return value is -1, errno is set, and no child was
created. -/
theorem C4_fork_behavior (s : PosixState) (h : 0 < s.nextPid) :
    (s.forkAllowed = true →
      (swift_fork posixOS s).1.2 = (s.nextPid : Int) ∧
      0 < (swift_fork posixOS s).1.2 ∧
      (swift_fork posixOS s).2 = some ((swift_fork posixOS s).1.1, 0) ∧
      (swift_fork posixOS s).1.1.procs.length = s.procs.length + 1 ∧
      s.nextPid ∈ (swift_fork posixOS s).1.1.procs) ∧
    (s.forkAllowed = false →
      (swift_fork posixOS s).1.2 = -1 ∧
      (swift_fork posixOS s).2 = none ∧
      (swift_fork posixOS s).1.1.errno = EAGAIN ∧
      (swift_fork posixOS s).1.1.procs = s.procs) := by
  constructor
  · intro hf
    have e : swift_fork posixOS s =
        (({ s with procs := s.nextPid :: s.procs, nextPid := s.nextPid + 1 },
            (s.nextPid : Int)),
          some ({ s with procs := s.nextPid :: s.procs, nextPid := s.nextPid + 1 },
            0)) := by
      simp [swift_fork, posixOS, posix_fork, hf]
    rw [e]
    refine ⟨rfl, ?_, rfl, rfl, List.mem_cons_self _ _⟩
    show (0 : Int) < (s.nextPid : Int)
    exact_mod_cast h
  · intro hf
    have e : swift_fork posixOS s = (({ s with errno := EAGAIN }, -1), none) := by
      simp [swift_fork, posixOS, posix_fork, hf]
    rw [e]
    exact ⟨rfl, rfl, rfl, rfl⟩

/-- A concrete state for the C4 witness: errno 0, no segments, one process
with pid 1, next pid 2, fork allowed. -/
def forkDemoState : PosixState :=
  { errno := 0, segments := [], procs := [1], nextPid := 2, forkAllowed := true }

/-- Witness for C4 at a concrete state. -/
theorem C4_fork_behavior_witness :
    (forkDemoState.forkAllowed = true →
      (swift_fork posixOS forkDemoState).1.2 = (forkDemoState.nextPid : Int) ∧
      0 < (swift_fork posixOS forkDemoState).1.2 ∧
      (swift_fork posixOS forkDemoState).2 =
        some ((swift_fork posixOS forkDemoState).1.1, 0) ∧
      (swift_fork posixOS forkDemoState).1.1.procs.length =
        forkDemoState.procs.length + 1 ∧
      forkDemoState.nextPid ∈ (swift_fork posixOS forkDemoState).1.1.procs) ∧
    (forkDemoState.forkAllowed = false →
      (swift_fork posixOS forkDemoState).1.2 = -1 ∧
      (swift_fork posixOS forkDemoState).2 = none ∧
      (swift_fork posixOS forkDemoState).1.1.errno = EAGAIN ∧
      (swift_fork posixOS forkDemoState).1.1.procs = forkDemoState.procs) :=
  C4_fork_behavior forkDemoState (by decide)

/-- C6: on any platform whose compiled interface contains both
swift_RTLD_DEFAULT and swift_RTLD_NEXT, their return values differ from
each other, and each is stable across repeated calls in arbitrary states. -/
theorem C6_sentinels_distinct {σ : Type} (p : Platform) (s t : σ)
    (h : EntryPoint.rtldDefault ∈ compiledInterface p) :
    (swift_RTLD_DEFAULT p s).1 ≠ (swift_RTLD_NEXT p t).1 ∧
    (swift_RTLD_DEFAULT p s).1 = (swift_RTLD_DEFAULT p t).1 ∧
    (swift_RTLD_NEXT p s).1 = (swift_RTLD_NEXT p t).1 := by
  cases p with
  | darwin =>
    refine ⟨?_, rfl, rfl⟩
    show RTLD_DEFAULT_value .darwin ≠ RTLD_NEXT_value .darwin
    decide
  | linuxLike =>
    refine ⟨?_, rfl, rfl⟩
    show RTLD_DEFAULT_value .linuxLike ≠ RTLD_NEXT_value .linuxLike
    decide
  | unsupported => exact absurd h (by decide)

/-- Witness for C6 on the Linux-like platform with a trivial state. -/
theorem C6_sentinels_distinct_witness :
    (swift_RTLD_DEFAULT .linuxLike (0 : Nat)).1 ≠
      (swift_RTLD_NEXT .linuxLike (0 : Nat)).1 ∧
    (swift_RTLD_DEFAULT .linuxLike (0 : Nat)).1 =
      (swift_RTLD_DEFAULT .linuxLike (0 : Nat)).1 ∧
    (swift_RTLD_NEXT .linuxLike (0 : Nat)).1 =
      (swift_RTLD_NEXT .linuxLike (0 : Nat)).1 :=
  C6_sentinels_distinct .linuxLike 0 0 (by decide)

/-- C7: if swift_shm_open("/test-seg", O_CREAT | O_RDWR, 0o600) succeeds on
the spec-modelled OS, an immediately following call with the same name and
mode plus O_EXCL returns -1 with errno EEXIST. -/
theorem C7_excl_after_create (s : PosixState)
    (h : (swift_shm_open posixOS "/test-seg" (Int.lor O_CREAT O_RDWR) 384 s).1 ≠ -1) :
    (swift_shm_open posixOS "/test-seg" (Int.lor (Int.lor O_CREAT O_EXCL) O_RDWR) 384
      (swift_shm_open posixOS "/test-seg" (Int.lor O_CREAT O_RDWR) 384 s).2).1 = -1 ∧
    (swift_shm_open posixOS "/test-seg" (Int.lor (Int.lor O_CREAT O_EXCL) O_RDWR) 384
      (swift_shm_open posixOS "/test-seg" (Int.lor O_CREAT O_RDWR) 384 s).2).2.errno
      = EEXIST := by
  have h1 : hasFlag (Int.lor O_CREAT O_RDWR) O_CREAT = true := by decide
  have h2 : hasFlag (Int.lor O_CREAT O_RDWR) O_EXCL = false := by decide
  have h3 : hasFlag (Int.lor (Int.lor O_CREAT O_EXCL) O_RDWR) O_CREAT = true := by
    decide
  have h4 : hasFlag (Int.lor (Int.lor O_CREAT O_EXCL) O_RDWR) O_EXCL = true := by
    decide
  by_cases hc : "/test-seg" ∈ s.segments <;>
    simp [swift_shm_open, posixOS, posix_shm_open, hc, h1, h2, h3, h4]

/-- A concrete state for the C7 witness: fresh process, no segments. -/
def shmDemoState : PosixState :=
  { errno := 0, segments := [], procs := [1], nextPid := 2, forkAllowed := true }

/-- Witness for C7 at a concrete state. -/
theorem C7_excl_after_create_witness :
    (swift_shm_open posixOS "/test-seg" (Int.lor (Int.lor O_CREAT O_EXCL) O_RDWR) 384
      (swift_shm_open posixOS "/test-seg" (Int.lor O_CREAT O_RDWR) 384 shmDemoState).2).1
      = -1 ∧
    (swift_shm_open posixOS "/test-seg" (Int.lor (Int.lor O_CREAT O_EXCL) O_RDWR) 384
      (swift_shm_open posixOS "/test-seg" (Int.lor O_CREAT O_RDWR) 384 shmDemoState).2).2.errno
      = EEXIST :=
  C7_excl_after_create shmDemoState (by decide)

/-- C8: the four accessors are total and cannot fail: each performs no OS
call and leaves the entire process state — in particular errno — exactly
as it was, and its return value does not depend on the state, so no call
can set or observe an error condition. -/
theorem C8_accessors_no_failure (p : Platform) (s t : PosixState) :
    ((swift_RTLD_DEFAULT p s).2.errno = s.errno ∧
      (swift_RTLD_DEFAULT p s).2 = s ∧
      (swift_RTLD_DEFAULT p s).1 = (swift_RTLD_DEFAULT p t).1) ∧
    ((swift_RTLD_NEXT p s).2.errno = s.errno ∧
      (swift_RTLD_NEXT p s).2 = s ∧
      (swift_RTLD_NEXT p s).1 = (swift_RTLD_NEXT p t).1) ∧
    ((swift_RTLD_MAIN_ONLY p s).2.errno = s.errno ∧
      (swift_RTLD_MAIN_ONLY p s).2 = s ∧
      (swift_RTLD_MAIN_ONLY p s).1 = (swift_RTLD_MAIN_ONLY p t).1) ∧
    ((swift_RTLD_FIRST p s).2.errno = s.errno ∧
      (swift_RTLD_FIRST p s).2 = s ∧
      (swift_RTLD_FIRST p s).1 = (swift_RTLD_FIRST p t).1) :=
  ⟨⟨rfl, rfl, rfl⟩, ⟨rfl, rfl, rfl⟩, ⟨rfl, rfl, rfl⟩, ⟨rfl, rfl, rfl⟩⟩

/-- C9: the value that reaches the underlying shm_open is the supplied mode
reduced modulo 2 ^ 16 (the width of Darwin mode_t); an out-of-range value
is silently wrapped, not rejected: the call behaves exactly like the call
with the in-range representative. -/
theorem C9_mode_wraps {σ : Type} (os : OS σ) (name : String) (oflag : Int)
    (m : Nat) (s : σ) :
    toMode_t m = m % 2 ^ 16 ∧
    swift_shm_open_atBoundary os name oflag m s =
      os.shm_open name oflag (m % 2 ^ 16) s ∧
    swift_shm_open_atBoundary os name oflag m s =
      swift_shm_open_atBoundary os name oflag (m % 2 ^ 16) s := by
  refine ⟨rfl, rfl, ?_⟩
  simp only [swift_shm_open_atBoundary, toMode_t, MODE_T_BITS,
    Nat.mod_mod_of_dvd m dvd_rfl]

/-- C10: the two headers compose safely: the six wrapper names are pairwise
distinct; the two platform conditions make both headers contribute exactly
on Darwin, where all six entry points coexist without redefinition; and
each header is idempotent under repeated inclusion thanks to its include
guard. -/
theorem C10_headers_compose (p : Platform) (tu : TU) :
    (darwinShimNames ++ posixShimNames).Nodup ∧
    ((darwinShimEntries p ≠ [] ∧ posixShimEntries p ≠ []) ↔ p = .darwin) ∧
    compiledInterface .darwin =
      [.shmOpen, .fork, .rtldMainOnly, .rtldFirst, .rtldDefault, .rtldNext] ∧
    (compiledInterface .darwin).Nodup ∧
    includeDarwinShim p (includeDarwinShim p tu) = includeDarwinShim p tu ∧
    includePosixShim p (includePosixShim p tu) = includePosixShim p tu := by
  refine ⟨by decide, by cases p <;> decide, by decide, by decide, ?_, ?_⟩
  · by_cases h : "CDARWIN_SHIM_H" ∈ tu.guards
    · simp only [includeDarwinShim, h, if_true]
    · simp only [includeDarwinShim, h, if_false, List.mem_cons, true_or, if_true]
  · by_cases h : "CPOSIX_SHIM_H" ∈ tu.guards
    · simp only [includePosixShim, h, if_true]
    · simp only [includePosixShim, h, if_false, List.mem_cons, true_or, if_true]

end KernelPrimitives
